import Mathlib

/-!
Verification development for the SalesTrainerAI front end: a shallow
embedding of the chat session controller, message renderer, voice capture
adapter (static/js/chat.js) and of the password strength estimator
(templates/signup.html), together with theorems settling the specified
properties of those components.

The JavaScript is event driven and works over DOM state.  The embedding
represents the mutable page state as an explicit record, each handler as a
function from state (plus event data) to state, and the network as an
explicit list of outstanding requests managed by a small-step transition
relation.  String-rewriting done in the source through JavaScript regular
expressions is embedded as character-list scanners that reproduce the exact
match semantics of the concrete patterns used by the source (documented at
each definition).
-/

set_option maxRecDepth 16000

namespace SalesChat

/-! ### Message renderer: the markup transformation chain of addMessage
(chat.js lines 132-150).

The source applies, to assistant content only, a chain of four global
regular-expression replacements: headers (hash-hash-hash-space, a lazy
capture, an optional trailing space-hash-hash-hash, replaced by an h3
element), bullets (dash-space, a lazy capture, a newline-or-end group,
replaced by an li element), list wrapping (each li element wrapped in a ul
element, then every literal close-ul-open-ul pair deleted), and newline
conversion (double newline to a double br, then single newline to br).
-/

/-- Step 1 of the chain, the exact semantics of the JavaScript global
replace of the pattern with hash-hash-hash-space then a lazy dot-star
capture then an optional group of space-hash-hash-hash.  Because the lazy
capture is followed only by an optional group, the capture always succeeds
with zero characters, so every occurrence of hash-hash-hash-space is
replaced by an empty h3 element, additionally consuming an immediately
following space-hash-hash-hash when present (the greedy optional group). -/
def replaceHeaders : List Char → List Char
  | '#' :: '#' :: '#' :: ' ' :: ' ' :: '#' :: '#' :: '#' :: rest =>
      ('<' :: 'h' :: '3' :: '>' :: '<' :: '/' :: 'h' :: '3' :: '>' :: []) ++ replaceHeaders rest
  | '#' :: '#' :: '#' :: ' ' :: rest =>
      ('<' :: 'h' :: '3' :: '>' :: '<' :: '/' :: 'h' :: '3' :: '>' :: []) ++ replaceHeaders rest
  | c :: rest => c :: replaceHeaders rest
  | [] => []

/-- Step 2 of the chain, the exact semantics of the JavaScript global
replace of dash-space then a lazy dot-star capture then a group matching a
newline or end of input.  The dot does not cross newlines, so the capture
extends to the first newline (which is consumed by the match) or to the end
of the input.  The fuel argument is a structural-recursion device only:
every step consumes at least one input character, so the wrapper's fuel of
length plus one is never exhausted. -/
def replaceBulletsF : Nat → List Char → List Char
  | 0, l => l
  | _ + 1, [] => []
  | fuel + 1, '-' :: ' ' :: rest =>
      ('<' :: 'l' :: 'i' :: '>' :: []) ++ rest.takeWhile (fun c => c ≠ '\n') ++
        ('<' :: '/' :: 'l' :: 'i' :: '>' :: []) ++
        replaceBulletsF fuel ((rest.dropWhile (fun c => c ≠ '\n')).drop 1)
  | fuel + 1, c :: rest => c :: replaceBulletsF fuel rest

/-- Step 2 of the chain at adequate fuel. -/
def replaceBullets (l : List Char) : List Char := replaceBulletsF (l.length + 1) l

/-- Whether the list begins with the five characters of a closing li tag. -/
def isCloseLi : List Char → Bool
  | '<' :: '/' :: 'l' :: 'i' :: '>' :: _ => true
  | _ => false

/-- Helper for step 3: the lazy search of the pattern li-open then lazy
dot-star then li-close, starting right after an li-open tag.  Returns the
characters before the first li-close tag and the characters after it, or
none when a newline or the end of input intervenes (the dot cannot match a
newline, so the whole match attempt fails there). -/
def findLiClose : List Char → Option (List Char × List Char)
  | [] => none
  | c :: rest =>
      if c = '\n' then none
      else if isCloseLi (c :: rest) then some ([], (c :: rest).drop 5)
      else (findLiClose rest).map fun p => (c :: p.1, p.2)

/-- Step 3 of the chain (first half): each match of li-open, lazy dot-star,
li-close is wrapped in a ul element; when the close tag is not found before
a newline or the end of input the match attempt at this position fails and
scanning resumes one character further on.  The fuel argument is a
structural-recursion device only: every step consumes at least one input
character, so the wrapper's fuel of length plus one is never exhausted. -/
def wrapLisF : Nat → List Char → List Char
  | 0, l => l
  | _ + 1, [] => []
  | fuel + 1, '<' :: 'l' :: 'i' :: '>' :: rest =>
      (match findLiClose rest with
       | some (mid, r) =>
          ('<' :: 'u' :: 'l' :: '>' :: '<' :: 'l' :: 'i' :: '>' :: []) ++ mid ++
            ('<' :: '/' :: 'l' :: 'i' :: '>' :: '<' :: '/' :: 'u' :: 'l' :: '>' :: []) ++
            wrapLisF fuel r
       | none => '<' :: wrapLisF fuel ('l' :: 'i' :: '>' :: rest))
  | fuel + 1, c :: rest => c :: wrapLisF fuel rest

/-- Step 3 of the chain at adequate fuel. -/
def wrapLis (l : List Char) : List Char := wrapLisF (l.length + 1) l

/-- The containment test of step 3 (string includes li-open). -/
def hasLi : List Char → Bool
  | '<' :: 'l' :: 'i' :: '>' :: _ => true
  | _ :: rest => hasLi rest
  | [] => false

/-- Generic substring test, used to state properties of rendered output. -/
def startsWithL : List Char → List Char → Bool
  | [], _ => true
  | _ :: _, [] => false
  | n :: ns, h :: hs => n = h && startsWithL ns hs

/-- Whether the first list occurs as a contiguous run inside the second. -/
def hasSubstr (needle : List Char) : List Char → Bool
  | [] => startsWithL needle []
  | h :: t => startsWithL needle (h :: t) || hasSubstr needle t

/-- Global replacement of a literal non-empty pattern, the semantics of a
JavaScript global replace without metacharacters: scan left to right, at a
match emit the replacement and resume after the matched characters of the
original input (the emitted replacement is never rescanned).  The fuel
argument is a structural-recursion device only: every step consumes at
least one input character, so the wrapper's fuel of length plus one is
never exhausted. -/
def replaceAllF (pattern replacement : List Char) : Nat → List Char → List Char
  | 0, l => l
  | _ + 1, [] => []
  | fuel + 1, c :: rest =>
      if startsWithL pattern (c :: rest) then
        replacement ++ replaceAllF pattern replacement fuel ((c :: rest).drop pattern.length)
      else
        c :: replaceAllF pattern replacement fuel rest

/-- Global literal replacement on strings at adequate fuel. -/
def jsReplaceAll (s pattern replacement : String) : String :=
  String.mk (replaceAllF pattern.data replacement.data (s.data.length + 1) s.data)

/-- The full assistant-content transformation chain of addMessage
(chat.js lines 134-150). -/
def formatAssistantContent (content : String) : String :=
  let s1 := String.mk (replaceHeaders content.data)
  let s2 := String.mk (replaceBullets s1.data)
  let s3 :=
    if hasLi s2.data then jsReplaceAll (String.mk (wrapLis s2.data)) ("</ul><ul>") ("")
    else s2
  jsReplaceAll (jsReplaceAll s3 ("\n\n") ("<br><br>")) ("\n") ("<br>")

/-- Content formatting of addMessage (chat.js lines 132-150): the chain is
applied to assistant messages only; any other role passes through
unchanged. -/
def formatContent (role content : String) : String :=
  if role = "assistant" then formatAssistantContent content else content

/-! ### Platform date model and timestamp formatting (chat.js lines 123-130)

ECMAScript Date facts embedded here: the Date constructor never throws on a
string argument; an unparseable string yields an invalid date (NaN time
value); toLocaleTimeString of an invalid date returns the string
"Invalid Date" (ECMA-402), and of a valid date an hour-minute rendering.
A date value is therefore an Option: none is the invalid date. -/

/-- A wall-clock time of day: hour and minute. -/
abbrev JsTime := Fin 24 × Fin 60

/-- Two-digit zero padding used by the hour-minute locale format. -/
def pad2 (n : Nat) : String := if n < 10 then "0" ++ toString n else toString n

/-- Model of toLocaleTimeString with two-digit hour and minute options:
an invalid date renders as the string "Invalid Date" (ECMA-402), a valid
one as a padded hour-minute string. -/
def toLocaleHM : Option JsTime → String
  | none => "Invalid Date"
  | some t => pad2 t.1.val ++ ":" ++ pad2 t.2.val

/-- Model of the platform Date constructor on a string: a simplified
ISO-8601 parser.  A string shaped YYYY-MM-DDTHH:MM (digits and separators
as shown, fields in range) parses to its time of day; anything else is the
invalid date.  The constructor is total: it never throws. -/
def parseDate (s : String) : Option JsTime :=
  match s.data with
  | y1 :: y2 :: y3 :: y4 :: '-' :: o1 :: o2 :: '-' :: d1 :: d2 :: 'T' :: h1 :: h2 :: ':' :: i1 :: i2 :: _ =>
      if y1.isDigit ∧ y2.isDigit ∧ y3.isDigit ∧ y4.isDigit ∧ o1.isDigit ∧ o2.isDigit ∧
          d1.isDigit ∧ d2.isDigit ∧ h1.isDigit ∧ h2.isDigit ∧ i1.isDigit ∧ i2.isDigit then
        let mo := (o1.toNat - 48) * 10 + (o2.toNat - 48)
        let dd := (d1.toNat - 48) * 10 + (d2.toNat - 48)
        let hh := (h1.toNat - 48) * 10 + (h2.toNat - 48)
        let mi := (i1.toNat - 48) * 10 + (i2.toNat - 48)
        if hrange : hh < 24 ∧ mi < 60 then
          if 1 ≤ mo ∧ mo ≤ 12 ∧ 1 ≤ dd ∧ dd ≤ 31 then
            some (⟨hh, hrange.1⟩, ⟨mi, hrange.2⟩)
          else none
        else none
      else none
  | _ => none

/-- Timestamp formatting of addMessage (chat.js lines 124-130).  The source
wraps the conversion in try-catch with the current time as the fallback,
but neither the Date constructor nor toLocaleTimeString throws on any
input, so the catch branch is unreachable and the formatting is exactly
the locale rendering of the parsed timestamp. -/
def formatTimestamp (ts : String) : String := toLocaleHM (parseDate ts)

/-! ### JavaScript string primitives used by the handlers -/

/-- JavaScript String.prototype.trim: strip whitespace from both ends. -/
def jsTrim (s : String) : String :=
  String.mk (((s.data.dropWhile Char.isWhitespace).reverse.dropWhile Char.isWhitespace).reverse)

/-- Splitting a character list at every character satisfying the
predicate, keeping empty fields, the semantics of JavaScript
String.prototype.split with a single-character separator (the predicate
then tests equality with that character). -/
def splitByL (p : Char → Bool) : List Char → List (List Char)
  | [] => [[]]
  | c :: rest =>
      if p c then [] :: splitByL p rest
      else
        match splitByL p rest with
        | f :: fs => (c :: f) :: fs
        | [] => [[c]]

/-- JavaScript split on the single space character: empty fields are kept,
no other whitespace separates. -/
def jsSplitOnSpace (s : String) : List String :=
  (splitByL (fun c => c = ' ') s.data).map String.mk

/-! ### Data model of the chat page state -/

/-- A message record as carried on the wire and handed to addMessage. -/
structure Message where
  role : String
  content : String
  timestamp : String
deriving DecidableEq, Repr

/-- A message entry as rendered into the page: its role class, the content
markup produced by the formatting chain and the formatted timestamp. -/
structure RenderedMessage where
  role : String
  contentHtml : String
  timestampStr : String
deriving DecidableEq, Repr

/-- The mutable page state touched by the chat handlers: the input field,
the two in-flight guards, the active conversation identifier (the empty
string models an unset, falsy identifier), the conversation title, the
rendered message entries, the transient error elements, the status
indicator, the feedback control and the sidebar conversation items. -/
structure ChatState where
  inputValue : String
  inputDisabled : Bool
  isWaitingForResponse : Bool
  currentConversationId : String
  chatTitle : String
  messages : List RenderedMessage
  errors : List String
  statusMessage : String
  statusState : String
  feedbackBtnDisabled : Bool
  emptyStateActive : Bool
  sidebar : List (String × String)
deriving DecidableEq, Repr

/-- An outbound chat-message request: the conversation-scoped endpoint it
is posted to and the message text carried in its body (also captured by the
response closure for title derivation). -/
structure SendRequest where
  conversationId : String
  messageText : String
deriving DecidableEq, Repr

/-- The parsed JSON body a resolved send request produces: the
discriminating status field, the optional assistant message and the
optional error text. -/
structure ResponseData where
  status : String
  message : Option Message
  error : Option String
deriving DecidableEq, Repr

/-- JavaScript or-else on an optional string: an absent or empty (falsy)
value selects the fallback. -/
def jsOrElse (x : Option String) (fallback : String) : String :=
  match x with
  | some e => if e = "" then fallback else e
  | none => fallback

/-! ### Chat session controller (chat.js lines 1-110 and 177-221) -/

/-- updateStatus (chat.js lines 178-198): records the status text and the
status state class on the indicator. -/
def updateStatus (s : ChatState) (message state : String) : ChatState :=
  { s with statusMessage := message, statusState := state }

/-- showError (chat.js lines 201-221): appends a transient error element to
the message area (the element does not carry the message class, so it never
counts as a message entry). -/
def showError (s : ChatState) (message : String) : ChatState :=
  { s with errors := s.errors ++ [message] }

/-- addMessage (chat.js lines 113-175): a missing message is a no-op;
otherwise the empty-state marker is cleared and one entry is appended,
rendered through the role-dependent formatting chain and the timestamp
format. -/
def addMessage (s : ChatState) (message : Option Message) : ChatState :=
  match message with
  | none => s
  | some m =>
      { s with
        emptyStateActive := false,
        messages := s.messages ++
          [{ role := m.role, contentHtml := formatContent m.role m.content,
             timestampStr := formatTimestamp m.timestamp }] }

/-- The title derivation of the success branch (chat.js lines 44-60):
only when the title still equals the sentinel, the user's message is split
on the single space character; with more than two fields the first five are
joined by spaces and an ellipsis is appended.  Returns the new title when
one is derived. -/
def deriveNewTitle (currentTitle text : String) : Option String :=
  if currentTitle = "New Conversation" then
    if (jsSplitOnSpace text).length > 2 then
      some (String.intercalate (" ") ((jsSplitOnSpace text).take 5) ++ "...")
    else none
  else none

/-- Sidebar mirroring (chat.js lines 52-58): the first sidebar item whose
identifier matches gets the derived title; no matching item is a no-op. -/
def updateSidebarTitles : List (String × String) → String → String → List (String × String)
  | [], _, _ => []
  | (id, t) :: rest, cid, newT =>
      if id = cid then (id, newT) :: rest else (id, t) :: updateSidebarTitles rest cid newT

/-- Applies the derived title (when any) to the heading and the sidebar. -/
def deriveTitleUpdate (s : ChatState) (messageText : String) : ChatState :=
  match deriveNewTitle s.chatTitle messageText with
  | some t =>
      { s with chatTitle := t,
               sidebar := updateSidebarTitles s.sidebar s.currentConversationId t }
  | none => s

/-- Feedback enabling (chat.js lines 62-66): once four or more message
entries are rendered the feedback control is enabled. -/
def enableFeedbackIfReady (s : ChatState) : ChatState :=
  if s.messages.length ≥ 4 then { s with feedbackBtnDisabled := false } else s

/-- handleSendMessage up to the network dispatch (chat.js lines 2-32).
The guard exits silently on empty trimmed text, an outstanding request or a
falsy conversation identifier.  Otherwise the input is disabled, the
waiting flag set, the status set to loading, the user message echoed
optimistically, the input cleared, and the request returned for dispatch
(the returned request exists only together with the already-echoed state,
which is the order the source performs these effects in). -/
def handleSendMessage (s : ChatState) (nowIso : String) : ChatState × Option SendRequest :=
  if jsTrim s.inputValue = "" ∨ s.isWaitingForResponse = true ∨ s.currentConversationId = "" then
    (s, none)
  else
    ({ addMessage
        (updateStatus { s with inputDisabled := true, isWaitingForResponse := true }
          ("Thinking...") ("loading"))
        (some { role := "user", content := jsTrim s.inputValue, timestamp := nowIso })
        with inputValue := "" },
     some { conversationId := s.currentConversationId, messageText := jsTrim s.inputValue })

/-- The resolution callback of the send request (chat.js lines 34-75): the
input is re-enabled and the waiting flag cleared on every path; on success
the assistant message is appended, the title possibly derived from the
captured message text, the feedback control possibly enabled and the status
set to ready; otherwise the error text (or its fallback) is surfaced and
the status set to error. -/
def handleSendThen (s : ChatState) (req : SendRequest) (data : ResponseData) : ChatState :=
  if data.status = "success" then
    updateStatus
      (enableFeedbackIfReady
        (deriveTitleUpdate
          (addMessage { s with inputDisabled := false, isWaitingForResponse := false }
            data.message)
          req.messageText))
      ("Ready") ("ready")
  else
    updateStatus
      (showError { s with inputDisabled := false, isWaitingForResponse := false }
        (jsOrElse data.error ("Failed to send message")))
      ("Error") ("error")

/-- The rejection callback of the send request (chat.js lines 76-81): the
input is re-enabled, the waiting flag cleared, a transport error surfaced
and the status set to error. -/
def handleSendCatch (s : ChatState) (errMessage : String) : ChatState :=
  updateStatus
    (showError { s with inputDisabled := false, isWaitingForResponse := false }
      ("Error sending message: " ++ errMessage))
    ("Error") ("error")

/-! ### The event system: submissions and request completions

The page is single threaded; the only suspension point of the send path is
the network request.  A system state pairs the page state with the list of
outstanding send requests, and a step is a form submission, a resolution of
an outstanding request with parsed response data, or a transport rejection
of an outstanding request. -/

/-- Page state plus the outstanding send requests. -/
structure SysState where
  ui : ChatState
  inflight : List SendRequest
deriving DecidableEq

/-- One event-loop turn of the send path: a submission dispatches whatever
request handleSendMessage produces; a completion (resolution or rejection)
removes one outstanding request and runs its callback. -/
inductive Step : SysState → SysState → Prop
  | submit (σ : SysState) (nowIso : String) :
      Step σ ⟨(handleSendMessage σ.ui nowIso).1,
              σ.inflight ++ ((handleSendMessage σ.ui nowIso).2).toList⟩
  | resolve (σ : SysState) (req : SendRequest) (data : ResponseData)
      (h : req ∈ σ.inflight) :
      Step σ ⟨handleSendThen σ.ui req data, σ.inflight.erase req⟩
  | reject (σ : SysState) (req : SendRequest) (err : String)
      (h : req ∈ σ.inflight) :
      Step σ ⟨handleSendCatch σ.ui err, σ.inflight.erase req⟩

/-- The single-flight invariant: at most one send request is outstanding,
and the input control is disabled, and the waiting flag set, exactly while
one is. -/
def ChatInv (σ : SysState) : Prop :=
  σ.inflight.length ≤ 1 ∧
    (σ.ui.inputDisabled = true ↔ σ.inflight ≠ []) ∧
    (σ.ui.isWaitingForResponse = true ↔ σ.inflight ≠ [])

/-! ### Voice capture adapter (chat.js lines 224-315) -/

/-- The voice adapter state read by stopVoiceInput: whether the platform
recognizer exists, whether capture is active, and the input field text. -/
structure VoiceState where
  recognitionAvailable : Bool
  isRecording : Bool
  inputValue : String
deriving DecidableEq, Repr

/-- stopVoiceInput (chat.js lines 304-315): without a recognizer or active
recording nothing happens; otherwise the recognizer is stopped and, exactly
when the input holds non-empty trimmed text, a form submission is scheduled
after the fixed 300 millisecond debounce.  Returns whether stop was
requested and the scheduled delay, if any. -/
def stopVoiceInput (v : VoiceState) : Bool × Option Nat :=
  if v.recognitionAvailable = false ∨ v.isRecording = false then (false, none)
  else (true, if jsTrim v.inputValue = "" then none else some 300)

/-! ### Password strength estimator (signup.html lines 215-238) -/

/-- The six additive strength points of checkPasswordStrength: two length
points (at least 8, at least 12 characters) and four character-class points
(an upper-case letter, a lower-case letter, a digit, anything else). -/
def checkPasswordStrength (password : String) : Nat :=
  (if password.length ≥ 8 then 1 else 0) +
  (if password.length ≥ 12 then 1 else 0) +
  (if password.data.any (fun c => 'A' ≤ c && c ≤ 'Z') then 1 else 0) +
  (if password.data.any (fun c => 'a' ≤ c && c ≤ 'z') then 1 else 0) +
  (if password.data.any (fun c => '0' ≤ c && c ≤ '9') then 1 else 0) +
  (if password.data.any
      (fun c => !(('A' ≤ c && c ≤ 'Z') || ('a' ≤ c && c ≤ 'z') || ('0' ≤ c && c ≤ '9')))
    then 1 else 0)

/-- The bucket thresholds of checkPasswordStrength (signup.html lines
228-238): five points or more is Strong, three or more is Medium, anything
less is Weak. -/
def strengthLevel (password : String) : String :=
  if checkPasswordStrength password ≥ 5 then "Strong"
  else if checkPasswordStrength password ≥ 3 then "Medium"
  else "Weak"

/-! ### Specification-side definitions used to compare against the code -/

/-- The title derivation as the specification words it: the first five
whitespace-separated tokens of the user's message joined by spaces plus an
ellipsis, applied only when the message has more than two such tokens. -/
def specDeriveTitle (text : String) : Option String :=
  let tokens := ((splitByL Char.isWhitespace text.data).map String.mk).filter (fun t => t ≠ "")
  if tokens.length > 2 then
    some (String.intercalate (" ") (tokens.take 5) ++ "...")
  else none

/-! ### Frame and shape lemmas for the handler components -/

@[simp] theorem updateStatus_messages (s : ChatState) (m st : String) :
    (updateStatus s m st).messages = s.messages := rfl

@[simp] theorem updateStatus_chatTitle (s : ChatState) (m st : String) :
    (updateStatus s m st).chatTitle = s.chatTitle := rfl

@[simp] theorem updateStatus_inputValue (s : ChatState) (m st : String) :
    (updateStatus s m st).inputValue = s.inputValue := rfl

@[simp] theorem updateStatus_inputDisabled (s : ChatState) (m st : String) :
    (updateStatus s m st).inputDisabled = s.inputDisabled := rfl

@[simp] theorem updateStatus_isWaiting (s : ChatState) (m st : String) :
    (updateStatus s m st).isWaitingForResponse = s.isWaitingForResponse := rfl

@[simp] theorem showError_messages (s : ChatState) (m : String) :
    (showError s m).messages = s.messages := rfl

@[simp] theorem showError_chatTitle (s : ChatState) (m : String) :
    (showError s m).chatTitle = s.chatTitle := rfl

@[simp] theorem showError_inputValue (s : ChatState) (m : String) :
    (showError s m).inputValue = s.inputValue := rfl

@[simp] theorem showError_inputDisabled (s : ChatState) (m : String) :
    (showError s m).inputDisabled = s.inputDisabled := rfl

@[simp] theorem showError_isWaiting (s : ChatState) (m : String) :
    (showError s m).isWaitingForResponse = s.isWaitingForResponse := rfl

@[simp] theorem addMessage_none (s : ChatState) : addMessage s none = s := rfl

@[simp] theorem addMessage_some_messages (s : ChatState) (m : Message) :
    (addMessage s (some m)).messages = s.messages ++
      [{ role := m.role, contentHtml := formatContent m.role m.content,
         timestampStr := formatTimestamp m.timestamp }] := rfl

@[simp] theorem addMessage_chatTitle (s : ChatState) (m : Option Message) :
    (addMessage s m).chatTitle = s.chatTitle := by cases m <;> rfl

@[simp] theorem addMessage_inputValue (s : ChatState) (m : Option Message) :
    (addMessage s m).inputValue = s.inputValue := by cases m <;> rfl

@[simp] theorem addMessage_inputDisabled (s : ChatState) (m : Option Message) :
    (addMessage s m).inputDisabled = s.inputDisabled := by cases m <;> rfl

@[simp] theorem addMessage_isWaiting (s : ChatState) (m : Option Message) :
    (addMessage s m).isWaitingForResponse = s.isWaitingForResponse := by cases m <;> rfl

@[simp] theorem deriveTitleUpdate_messages (s : ChatState) (text : String) :
    (deriveTitleUpdate s text).messages = s.messages := by
  unfold deriveTitleUpdate
  cases deriveNewTitle s.chatTitle text <;> rfl

@[simp] theorem deriveTitleUpdate_inputValue (s : ChatState) (text : String) :
    (deriveTitleUpdate s text).inputValue = s.inputValue := by
  unfold deriveTitleUpdate
  cases deriveNewTitle s.chatTitle text <;> rfl

@[simp] theorem deriveTitleUpdate_inputDisabled (s : ChatState) (text : String) :
    (deriveTitleUpdate s text).inputDisabled = s.inputDisabled := by
  unfold deriveTitleUpdate
  cases deriveNewTitle s.chatTitle text <;> rfl

@[simp] theorem deriveTitleUpdate_isWaiting (s : ChatState) (text : String) :
    (deriveTitleUpdate s text).isWaitingForResponse = s.isWaitingForResponse := by
  unfold deriveTitleUpdate
  cases deriveNewTitle s.chatTitle text <;> rfl

@[simp] theorem deriveTitleUpdate_chatTitle (s : ChatState) (text : String) :
    (deriveTitleUpdate s text).chatTitle = (deriveNewTitle s.chatTitle text).getD s.chatTitle := by
  unfold deriveTitleUpdate
  cases deriveNewTitle s.chatTitle text <;> rfl

@[simp] theorem enableFeedbackIfReady_messages (s : ChatState) :
    (enableFeedbackIfReady s).messages = s.messages := by
  unfold enableFeedbackIfReady
  split <;> rfl

@[simp] theorem enableFeedbackIfReady_chatTitle (s : ChatState) :
    (enableFeedbackIfReady s).chatTitle = s.chatTitle := by
  unfold enableFeedbackIfReady
  split <;> rfl

@[simp] theorem enableFeedbackIfReady_inputValue (s : ChatState) :
    (enableFeedbackIfReady s).inputValue = s.inputValue := by
  unfold enableFeedbackIfReady
  split <;> rfl

@[simp] theorem enableFeedbackIfReady_inputDisabled (s : ChatState) :
    (enableFeedbackIfReady s).inputDisabled = s.inputDisabled := by
  unfold enableFeedbackIfReady
  split <;> rfl

@[simp] theorem enableFeedbackIfReady_isWaiting (s : ChatState) :
    (enableFeedbackIfReady s).isWaitingForResponse = s.isWaitingForResponse := by
  unfold enableFeedbackIfReady
  split <;> rfl

/-- A failing submission is a silent no-op returning no request. -/
theorem handleSendMessage_noop (s : ChatState) (nowIso : String)
    (h : jsTrim s.inputValue = "" ∨ s.isWaitingForResponse = true ∨ s.currentConversationId = "") :
    handleSendMessage s nowIso = (s, none) := by
  unfold handleSendMessage
  rw [if_pos h]

/-- The canonical shape of a passing submission: one user entry appended,
input cleared and disabled, waiting flag set, the request returned. -/
theorem handleSendMessage_sends (s : ChatState) (nowIso : String)
    (h : ¬(jsTrim s.inputValue = "" ∨ s.isWaitingForResponse = true ∨ s.currentConversationId = "")) :
    handleSendMessage s nowIso =
      ({ s with
          inputDisabled := true, isWaitingForResponse := true,
          statusMessage := "Thinking...", statusState := "loading",
          emptyStateActive := false,
          messages := s.messages ++
            [{ role := "user", contentHtml := formatContent ("user") (jsTrim s.inputValue),
               timestampStr := formatTimestamp nowIso }],
          inputValue := "" },
       some { conversationId := s.currentConversationId, messageText := jsTrim s.inputValue }) := by
  unfold handleSendMessage
  rw [if_neg h]
  rfl

/-- The canonical shape of the non-success resolution path. -/
theorem handleSendThen_failure (s : ChatState) (req : SendRequest) (data : ResponseData)
    (h : ¬ data.status = "success") :
    handleSendThen s req data =
      { s with
          inputDisabled := false, isWaitingForResponse := false,
          errors := s.errors ++ [jsOrElse data.error ("Failed to send message")],
          statusMessage := "Error", statusState := "error" } := by
  unfold handleSendThen
  rw [if_neg h]
  rfl

/-- The canonical shape of the transport rejection path. -/
theorem handleSendCatch_eq (s : ChatState) (err : String) :
    handleSendCatch s err =
      { s with
          inputDisabled := false, isWaitingForResponse := false,
          errors := s.errors ++ ["Error sending message: " ++ err],
          statusMessage := "Error", statusState := "error" } := rfl

/-- Every resolution path re-enables the input. -/
theorem handleSendThen_inputDisabled (s : ChatState) (req : SendRequest) (data : ResponseData) :
    (handleSendThen s req data).inputDisabled = false := by
  unfold handleSendThen
  split <;> simp

/-- Every resolution path clears the waiting flag. -/
theorem handleSendThen_isWaiting (s : ChatState) (req : SendRequest) (data : ResponseData) :
    (handleSendThen s req data).isWaitingForResponse = false := by
  unfold handleSendThen
  split <;> simp

/-- The successful resolution path appends exactly the server message. -/
theorem handleSendThen_success_messages (s : ChatState) (req : SendRequest) (data : ResponseData)
    (m : Message) (hst : data.status = "success") (hm : data.message = some m) :
    (handleSendThen s req data).messages = s.messages ++
      [{ role := m.role, contentHtml := formatContent m.role m.content,
         timestampStr := formatTimestamp m.timestamp }] := by
  unfold handleSendThen
  rw [if_pos hst, hm]
  simp

/-- The successful resolution path derives the title exactly through
deriveNewTitle on the captured message text. -/
theorem handleSendThen_success_chatTitle (s : ChatState) (req : SendRequest) (data : ResponseData)
    (hst : data.status = "success") :
    (handleSendThen s req data).chatTitle =
      (deriveNewTitle s.chatTitle req.messageText).getD s.chatTitle := by
  unfold handleSendThen
  rw [if_pos hst]
  simp

/-- The user role never triggers the assistant formatting chain. -/
theorem formatContent_user (content : String) : formatContent ("user") content = content := by
  unfold formatContent
  rw [if_neg (by decide)]

/-- Every step of the event system preserves the single-flight invariant. -/
theorem step_preserves_ChatInv {σ1 σ2 : SysState} (hinv : ChatInv σ1) (hstep : Step σ1 σ2) :
    ChatInv σ2 := by
  obtain ⟨hlen, hdis, hwait⟩ := hinv
  cases hstep with
  | submit nowIso =>
      by_cases hg : jsTrim σ1.ui.inputValue = "" ∨ σ1.ui.isWaitingForResponse = true ∨
          σ1.ui.currentConversationId = ""
      · rw [handleSendMessage_noop σ1.ui nowIso hg]
        simpa [ChatInv, Option.toList] using ⟨hlen, hdis, hwait⟩
      · have hempty : σ1.inflight = [] := by
          by_contra hne
          have hw : σ1.ui.isWaitingForResponse = true := hwait.mpr hne
          exact hg (Or.inr (Or.inl hw))
        rw [handleSendMessage_sends σ1.ui nowIso hg]
        simp [ChatInv, Option.toList, hempty]
  | resolve req data hmem =>
      have hne : σ1.inflight ≠ [] := List.ne_nil_of_mem hmem
      have hone : σ1.inflight.length = 1 := le_antisymm hlen (List.length_pos.mpr hne)
      obtain ⟨a, ha⟩ := List.length_eq_one.mp hone
      have hra : req = a := by
        rw [ha] at hmem
        simpa using hmem
      subst hra
      rw [ha]
      simp [ChatInv, handleSendThen_inputDisabled, handleSendThen_isWaiting]
  | reject req err hmem =>
      have hne : σ1.inflight ≠ [] := List.ne_nil_of_mem hmem
      have hone : σ1.inflight.length = 1 := le_antisymm hlen (List.length_pos.mpr hne)
      obtain ⟨a, ha⟩ := List.length_eq_one.mp hone
      have hra : req = a := by
        rw [ha] at hmem
        simpa using hmem
      subst hra
      rw [ha]
      simp [ChatInv, handleSendCatch_eq]

/-! ### Concrete fixtures used to instantiate hypothesis-bearing theorems -/

/-- A concrete ready page state. -/
def sampleState : ChatState :=
  { inputValue := "I want to practice cold calls"
  , inputDisabled := false
  , isWaitingForResponse := false
  , currentConversationId := "7"
  , chatTitle := "New Conversation"
  , messages := []
  , errors := []
  , statusMessage := "Ready"
  , statusState := "ready"
  , feedbackBtnDisabled := true
  , emptyStateActive := true
  , sidebar := [("7", "New Conversation")] }

/-- A concrete assistant reply. -/
def sampleReply : Message :=
  { role := "assistant", content := "Nice work", timestamp := "2025-03-01T09:30:02" }

/-- A concrete successful response envelope. -/
def sampleResponse : ResponseData :=
  { status := "success", message := some sampleReply, error := none }

/-- A concrete non-success response envelope. -/
def failResponse : ResponseData :=
  { status := "error", message := none, error := some "model overloaded" }

/-- A concrete dispatched request matching sampleState. -/
def sampleRequest : SendRequest :=
  { conversationId := "7", messageText := "I want to practice cold calls" }

/-- The page state with whitespace-only input. -/
def emptyInputState : ChatState := { sampleState with inputValue := "   " }

/-- The page state whose input holds a message with a newline between
space-free words. -/
def c6State : ChatState := { sampleState with inputValue := "a b\nc" }

/-- The idle system: the ready page state with no outstanding request. -/
def initSys : SysState := { ui := sampleState, inflight := [] }

/-! ### The claims -/

/-- C1: for every conversation, at most one outbound chat-message request
is in flight at any time, and the input control is disabled exactly while
such a request is outstanding: submitMessage disables the input and sets
the in-flight flag before dispatching, and every completion path (success,
non-success status, transport error) re-enables the input and clears the
flag.  Formalised as: from any state with no outstanding request and the
input enabled, every state reachable through the event system satisfies
the single-flight invariant ChatInv. -/
theorem c1_single_flight_invariant (σ0 σ : SysState)
    (h0 : σ0.inflight = [] ∧ σ0.ui.inputDisabled = false ∧ σ0.ui.isWaitingForResponse = false)
    (hreach : Relation.ReflTransGen Step σ0 σ) :
    ChatInv σ := by
  induction hreach with
  | refl => exact ⟨by simp [h0.1], by simp [h0.1, h0.2.1], by simp [h0.1, h0.2.2]⟩
  | tail hsteps hstep ih => exact step_preserves_ChatInv ih hstep

theorem c1_witness :
    (initSys.inflight = [] ∧ initSys.ui.inputDisabled = false ∧
      initSys.ui.isWaitingForResponse = false) ∧ ChatInv initSys :=
  ⟨by decide, c1_single_flight_invariant initSys initSys (by decide) Relation.ReflTransGen.refl⟩

/-- C2: for every non-empty trimmed message text submitted while no
request is in flight (and a conversation is active), exactly one new
user-role entry is appended by the submission itself, which is the state
handed over together with the dispatched request (hence rendered before the
network call), and exactly one new assistant-role entry is appended by the
successful resolution of that specific request. -/
theorem c2_echo_before_dispatch_reply_after (s : ChatState) (nowIso : String)
    (data : ResponseData) (m : Message)
    (h1 : ¬ jsTrim s.inputValue = "") (h2 : s.isWaitingForResponse = false)
    (h3 : ¬ s.currentConversationId = "")
    (hst : data.status = "success") (hm : data.message = some m)
    (hrole : m.role = "assistant") :
    ∃ s1 req, handleSendMessage s nowIso = (s1, some req) ∧
      s1.messages = s.messages ++
        [{ role := "user", contentHtml := jsTrim s.inputValue,
           timestampStr := formatTimestamp nowIso }] ∧
      (handleSendThen s1 req data).messages = s1.messages ++
        [{ role := "assistant", contentHtml := formatContent ("assistant") m.content,
           timestampStr := formatTimestamp m.timestamp }] := by
  have hg : ¬(jsTrim s.inputValue = "" ∨ s.isWaitingForResponse = true ∨
      s.currentConversationId = "") := by
    simp [h1, h2, h3]
  rw [handleSendMessage_sends s nowIso hg]
  refine ⟨_, _, rfl, ?_, ?_⟩
  · simp [formatContent_user]
  · rw [handleSendThen_success_messages _ _ _ m hst hm, hrole]

theorem c2_witness :
    ∃ s1 req,
      handleSendMessage sampleState ("2025-03-01T09:30:00") = (s1, some req) ∧
      s1.messages = sampleState.messages ++
        [{ role := "user", contentHtml := jsTrim sampleState.inputValue,
           timestampStr := formatTimestamp ("2025-03-01T09:30:00") }] ∧
      (handleSendThen s1 req sampleResponse).messages = s1.messages ++
        [{ role := "assistant", contentHtml := formatContent ("assistant") sampleReply.content,
           timestampStr := formatTimestamp sampleReply.timestamp }] :=
  c2_echo_before_dispatch_reply_after sampleState ("2025-03-01T09:30:00") sampleResponse
    sampleReply (by decide) rfl (by decide) rfl rfl rfl

/-- C3: submitting with empty or whitespace-only text, or while a request
is already in flight, or with no active conversation identifier, is a
silent no-op: the state is unchanged (no entry rendered, no error
surfaced) and no request is dispatched. -/
theorem c3_precondition_violation_noop (s : ChatState) (nowIso : String)
    (h : jsTrim s.inputValue = "" ∨ s.isWaitingForResponse = true ∨
      s.currentConversationId = "") :
    handleSendMessage s nowIso = (s, none) :=
  handleSendMessage_noop s nowIso h

theorem c3_witness :
    (jsTrim emptyInputState.inputValue = "" ∨ emptyInputState.isWaitingForResponse = true ∨
      emptyInputState.currentConversationId = "") ∧
    handleSendMessage emptyInputState ("2025-03-01T09:30:00") = (emptyInputState, none) :=
  ⟨by decide, c3_precondition_violation_noop emptyInputState ("2025-03-01T09:30:00") (by decide)⟩

/-- C4: at the specified input the assistant formatting chain produces an
empty heading element with the text Title outside it, a single merged list
containing items a and b, and a single line break (not a paragraph break)
before End: of the claim's three rendering assertions only the single
merged list holds.  The lazy header capture followed by an optional group
always captures the empty string, and the bullet pattern consumes the
newline that ends each item, so no double newline survives to become a
paragraph break. -/
theorem c4_markup_chain_at_spec_input :
    formatContent ("assistant") ("### Title\n- a\n- b\n\nEnd") =
      "<h3></h3>Title<br><ul><li>a</li><li>b</li></ul><br>End" ∧
    hasSubstr (String.data ("<ul><li>a</li><li>b</li></ul>"))
      (String.data (formatContent ("assistant") ("### Title\n- a\n- b\n\nEnd"))) = true ∧
    hasSubstr (String.data ("<h3>Title</h3>"))
      (String.data (formatContent ("assistant") ("### Title\n- a\n- b\n\nEnd"))) = false ∧
    hasSubstr (String.data ("<br><br>"))
      (String.data (formatContent ("assistant") ("### Title\n- a\n- b\n\nEnd"))) = false := by
  decide

/-- C5: the claim that user content receives no HTML interpretation fails
on the code.  addMessage skips the markup expansion for the user role but
then assigns the raw content, with no escaping, into the content slot of
the message element through innerHTML (chat.js lines 153-163) — the very
slot in which assistant markup such as h3, ul and br becomes live
elements.  At the failing input the h3 and br tags reach that slot
verbatim (no entity escaping is introduced), and a user message carrying a
br tag renders byte-identically to an assistant message whose newline the
chain deliberately converted into that same interpreted br tag: the
rendered fragment cannot distinguish user-supplied markup from generated
markup, so HTML in user content is interpreted. -/
theorem c5_user_html_interpreted_unescaped (s : ChatState) (ts : String) :
    (addMessage s (some { role := "user", content := "<h3>Hi</h3><br>", timestamp := ts })).messages =
      s.messages ++
        [{ role := "user", contentHtml := "<h3>Hi</h3><br>",
           timestampStr := formatTimestamp ts }] ∧
    hasSubstr (String.data ("<h3>Hi</h3>"))
      (String.data (formatContent ("user") ("<h3>Hi</h3><br>"))) = true ∧
    hasSubstr (String.data ("&lt;"))
      (String.data (formatContent ("user") ("<h3>Hi</h3><br>"))) = false ∧
    formatContent ("user") ("x<br>y") = formatContent ("assistant") ("x\ny") := by
  refine ⟨?_, by decide, by decide, by decide⟩
  simp [formatContent_user]

/-- C6 counterexample: the user message with text a, space, b, newline, c
has three whitespace-separated tokens, so the claim requires the title to
become the first tokens joined by spaces plus an ellipsis; but the code
splits on the space character only, sees two fields, and leaves the
sentinel title unchanged after the successful reply. -/
theorem c6_counterexample :
    specDeriveTitle ("a b\nc") = some ("a b c...") ∧
    (handleSendMessage c6State ("2025-03-01T09:30:00")).2 =
      some { conversationId := "7", messageText := "a b\nc" } ∧
    (handleSendThen (handleSendMessage c6State ("2025-03-01T09:30:00")).1
        { conversationId := "7", messageText := "a b\nc" } sampleResponse).chatTitle =
      "New Conversation" ∧
    ("New Conversation" : String) ≠ "a b c..." := by
  decide

/-- C6 (amended): after a successful reply, if the conversation title is
still the sentinel, the title is derived from the user's message split on
the single space character (empty fields counted): with more than two such
fields it becomes the first five joined by spaces plus an ellipsis,
otherwise it remains the sentinel. -/
theorem c6_amended_title (s : ChatState) (req : SendRequest) (data : ResponseData)
    (hst : data.status = "success") (ht : s.chatTitle = "New Conversation") :
    (handleSendThen s req data).chatTitle =
      if (jsSplitOnSpace req.messageText).length > 2
      then String.intercalate (" ") ((jsSplitOnSpace req.messageText).take 5) ++ "..."
      else "New Conversation" := by
  rw [handleSendThen_success_chatTitle s req data hst, ht]
  unfold deriveNewTitle
  rw [if_pos rfl]
  by_cases hc : (jsSplitOnSpace req.messageText).length > 2
  · rw [if_pos hc, if_pos hc]
    rfl
  · rw [if_neg hc, if_neg hc]
    rfl

theorem c6_witness :
    (sampleResponse.status = "success" ∧ sampleState.chatTitle = "New Conversation") ∧
    (handleSendThen sampleState sampleRequest sampleResponse).chatTitle =
      (if (jsSplitOnSpace sampleRequest.messageText).length > 2
       then String.intercalate (" ") ((jsSplitOnSpace sampleRequest.messageText).take 5) ++ "..."
       else "New Conversation") :=
  ⟨⟨rfl, rfl⟩, c6_amended_title sampleState sampleRequest sampleResponse rfl rfl⟩

/-- Every valid-time rendering contains a colon. -/
theorem colon_mem_toLocaleHM (t : JsTime) : ':' ∈ (toLocaleHM (some t)).data := by
  show ':' ∈ ((pad2 t.1.val ++ ":") ++ pad2 t.2.val).data
  rw [String.data_append, String.data_append]
  exact List.mem_append_left _ (List.mem_append_right _ (by decide))

/-- C7: a message with an unparseable timestamp does not render the current
time: the Date constructor never throws, so the catch branch substituting
the current time is unreachable, and the rendered timestamp is the string
Invalid Date, which no hour-minute rendering of any current time equals. -/
theorem c7_unparseable_timestamp_renders_invalid :
    parseDate ("not-a-date") = none ∧
    formatTimestamp ("not-a-date") = "Invalid Date" ∧
    ∀ t : JsTime, toLocaleHM (some t) ≠ "Invalid Date" := by
  refine ⟨by decide, by decide, fun t h => ?_⟩
  have hmem := colon_mem_toLocaleHM t
  rw [h] at hmem
  exact absurd hmem (by decide)

/-- C8: the password-strength score maps to buckets at the exact
thresholds five (Strong) and three (Medium), anything below is Weak; the
three specified passwords land in Weak, Medium and Strong respectively. -/
theorem c8_password_strength_buckets :
    strengthLevel ("abc") = "Weak" ∧
    strengthLevel ("Abcdefgh1") = "Medium" ∧
    strengthLevel ("Ab1!Ab1!Ab1!") = "Strong" ∧
    ∀ p : String,
      (strengthLevel p = "Strong" ↔ 5 ≤ checkPasswordStrength p) ∧
      (strengthLevel p = "Medium" ↔
        3 ≤ checkPasswordStrength p ∧ checkPasswordStrength p < 5) ∧
      (strengthLevel p = "Weak" ↔ checkPasswordStrength p < 3) := by
  refine ⟨by decide, by decide, by decide, fun p => ?_⟩
  by_cases h5 : checkPasswordStrength p ≥ 5
  · simp only [strengthLevel, if_pos h5]
    exact ⟨⟨fun _ => h5, fun _ => trivial⟩,
           ⟨fun h => absurd h (by decide), fun h => absurd h5 (by omega)⟩,
           ⟨fun h => absurd h (by decide), fun h => absurd h5 (by omega)⟩⟩
  · by_cases h3 : checkPasswordStrength p ≥ 3
    · simp only [strengthLevel, if_neg h5, if_pos h3]
      exact ⟨⟨fun h => absurd h (by decide), fun h => absurd h h5⟩,
             ⟨fun _ => ⟨h3, by omega⟩, fun _ => trivial⟩,
             ⟨fun h => absurd h (by decide), fun h => absurd h3 (by omega)⟩⟩
    · simp only [strengthLevel, if_neg h5, if_neg h3]
      exact ⟨⟨fun h => absurd h (by decide), fun h => absurd h h5⟩,
             ⟨fun h => absurd h (by decide), fun h => absurd h.1 h3⟩,
             ⟨fun _ => by omega, fun _ => trivial⟩⟩

/-- C9: on explicit stop of active voice capture the recognizer is
stopped, and a submission is scheduled after the 300 millisecond debounce
exactly when the input holds non-empty trimmed text. -/
theorem c9_voice_stop_debounced_submission (v : VoiceState)
    (h1 : v.recognitionAvailable = true) (h2 : v.isRecording = true) :
    ((stopVoiceInput v).1 = true) ∧
    ((stopVoiceInput v).2 = some 300 ↔ ¬ jsTrim v.inputValue = "") ∧
    ((stopVoiceInput v).2 = none ↔ jsTrim v.inputValue = "") := by
  have hg : ¬(v.recognitionAvailable = false ∨ v.isRecording = false) := by
    simp [h1, h2]
  unfold stopVoiceInput
  rw [if_neg hg]
  by_cases he : jsTrim v.inputValue = ""
  · rw [if_pos he]
    exact ⟨rfl, ⟨fun h => Option.noConfusion h, fun h => absurd he h⟩,
           ⟨fun _ => he, fun _ => rfl⟩⟩
  · rw [if_neg he]
    exact ⟨rfl, ⟨fun _ => he, fun _ => rfl⟩,
           ⟨fun h => Option.noConfusion h, fun h => absurd h he⟩⟩

/-- A concrete active voice-capture state. -/
def sampleVoice : VoiceState :=
  { recognitionAvailable := true, isRecording := true, inputValue := "hello there" }

theorem c9_witness :
    (sampleVoice.recognitionAvailable = true ∧ sampleVoice.isRecording = true) ∧
    ((stopVoiceInput sampleVoice).1 = true) ∧
    ((stopVoiceInput sampleVoice).2 = some 300 ↔ ¬ jsTrim sampleVoice.inputValue = "") ∧
    ((stopVoiceInput sampleVoice).2 = none ↔ jsTrim sampleVoice.inputValue = "") :=
  ⟨⟨rfl, rfl⟩, c9_voice_stop_debounced_submission sampleVoice rfl rfl⟩

/-- C10: on every failed completion (non-success status or transport
error) of a dispatched submission, the optimistic user echo remains the
last entry (nothing is rolled back), no assistant entry is added, the
input field remains cleared, the conversation title is unchanged, and the
input control is re-enabled with the waiting flag cleared. -/
theorem c10_failure_frame (s : ChatState) (nowIso : String) (data : ResponseData) (err : String)
    (h1 : ¬ jsTrim s.inputValue = "") (h2 : s.isWaitingForResponse = false)
    (h3 : ¬ s.currentConversationId = "") (hfail : ¬ data.status = "success") :
    ∃ s1 req, handleSendMessage s nowIso = (s1, some req) ∧
      s1.messages = s.messages ++
        [{ role := "user", contentHtml := jsTrim s.inputValue,
           timestampStr := formatTimestamp nowIso }] ∧
      ((handleSendThen s1 req data).messages = s1.messages ∧
        (handleSendThen s1 req data).inputValue = "" ∧
        (handleSendThen s1 req data).chatTitle = s.chatTitle ∧
        (handleSendThen s1 req data).inputDisabled = false ∧
        (handleSendThen s1 req data).isWaitingForResponse = false) ∧
      ((handleSendCatch s1 err).messages = s1.messages ∧
        (handleSendCatch s1 err).inputValue = "" ∧
        (handleSendCatch s1 err).chatTitle = s.chatTitle ∧
        (handleSendCatch s1 err).inputDisabled = false ∧
        (handleSendCatch s1 err).isWaitingForResponse = false) := by
  have hg : ¬(jsTrim s.inputValue = "" ∨ s.isWaitingForResponse = true ∨
      s.currentConversationId = "") := by
    simp [h1, h2, h3]
  rw [handleSendMessage_sends s nowIso hg]
  refine ⟨_, _, rfl, ?_, ?_, ?_⟩
  · simp [formatContent_user]
  · rw [handleSendThen_failure _ _ _ hfail]
    exact ⟨rfl, rfl, rfl, rfl, rfl⟩
  · rw [handleSendCatch_eq]
    exact ⟨rfl, rfl, rfl, rfl, rfl⟩

theorem c10_witness :
    (¬ jsTrim sampleState.inputValue = "" ∧ sampleState.isWaitingForResponse = false ∧
      ¬ sampleState.currentConversationId = "" ∧ ¬ failResponse.status = "success") ∧
    (∃ s1 req, handleSendMessage sampleState ("2025-03-01T09:30:00") = (s1, some req) ∧
      s1.messages = sampleState.messages ++
        [{ role := "user", contentHtml := jsTrim sampleState.inputValue,
           timestampStr := formatTimestamp ("2025-03-01T09:30:00") }] ∧
      ((handleSendThen s1 req failResponse).messages = s1.messages ∧
        (handleSendThen s1 req failResponse).inputValue = "" ∧
        (handleSendThen s1 req failResponse).chatTitle = sampleState.chatTitle ∧
        (handleSendThen s1 req failResponse).inputDisabled = false ∧
        (handleSendThen s1 req failResponse).isWaitingForResponse = false) ∧
      ((handleSendCatch s1 ("Failed to fetch")).messages = s1.messages ∧
        (handleSendCatch s1 ("Failed to fetch")).inputValue = "" ∧
        (handleSendCatch s1 ("Failed to fetch")).chatTitle = sampleState.chatTitle ∧
        (handleSendCatch s1 ("Failed to fetch")).inputDisabled = false ∧
        (handleSendCatch s1 ("Failed to fetch")).isWaitingForResponse = false)) :=
  ⟨⟨by decide, rfl, by decide, by decide⟩,
   c10_failure_frame sampleState ("2025-03-01T09:30:00") failResponse ("Failed to fetch")
     (by decide) rfl (by decide) (by decide)⟩

end SalesChat
